import Mathlib

/-!
Shallow embedding of the Cuoral React-Native widget's session/socket
lifecycle manager (src/context/CuoralContext.js).

Modelling conventions:
  * JS strings are `String`; possibly-`undefined`/`null` string fields are
    `Option String`.  JS truthiness of a string value is `jsTruthy`
    (`undefined`, `null` and `""` are falsy); the JS idioms `x || d` and
    `x || null` are `jsStrOr` and `jsOrNull`.
  * `Date` values are modelled by their epoch-milliseconds as `Int`; parsing
    a wire timestamp string is an uninterpreted parameter
    `parseTime : Option String → Int` (claims never depend on its values).
  * Network calls are oracles: each fallible request takes its outcome
    (`FetchResult`, `InitResult`, `ProfileResult`, `UploadResult`) as an
    explicit argument, covering the transport-throw, non-ok HTTP and ok
    cases of the source's `fetch` calls.
  * React `useState` cells are collected in one record `CuoralState`;
    `setX` calls become functional record updates.  The socket binding
    performed by `connectSocket` is recorded in `socketBoundTo`;
    `AsyncStorage` under the single session key is `storedSessionId`.
  * Side effects (sound alert, local notification) and outbound socket
    emissions are returned as lists of `Effect` / `OutEvent` values.
  * `Array.prototype.sort` with comparator
    `(a, b) => new Date(a.timestamp).getTime() - new Date(b.timestamp).getTime()`
    is a stable ascending sort by timestamp; it is modelled by the stable
    insertion sort `sortByTs` (stable ascending sorts are extensionally
    unique, and this one reduces in the kernel).
-/

namespace Cuoral

/-- JS truthiness of a possibly-absent string: `undefined`/`null`/`""` are falsy. -/
def jsTruthy : Option String → Bool
  | none => false
  | some s => !(s == "")

/-- The JS idiom `x || d` on a possibly-absent string with string default. -/
def jsStrOr (o : Option String) (d : String) : String :=
  match o with
  | some s => if s == "" then d else s
  | none => d

/-- The JS idiom `x || null` on a possibly-absent string. -/
def jsOrNull (o : Option String) : Option String :=
  match o with
  | some s => if s == "" then none else some s
  | none => none

/-- One entry of the `messages` state array (a chat message as the client
stores it: the object shapes built in `getSession`, the socket handlers and
`ChatScreen`). -/
structure Msg where
  id : String
  conversationId : Option String
  text : Option String
  sender : String
  timestamp : Int
  fileUrl : Option String
  fileName : Option String
deriving DecidableEq

/-- A side-effect invocation made from the socket handlers:
`playNotificationSound()` or `sendLocalNotification(title, body)`. -/
inductive Effect where
  | playSound
  | notify (title : String) (body : Option String)
deriving DecidableEq

/-- The `messageData` field of an inbound socket envelope. -/
structure MessageData where
  message_type : Option String
  channel : Option String
  author_type : Option String
  message : Option String
  time_created : Option String
  file_url : Option String
  filename : Option String
  file : Option String
deriving DecidableEq

/-- An inbound socket envelope (`message` argument of the `send_message` /
`send_file` handlers); the whole envelope or its `messageData` may be absent. -/
structure Envelope where
  room : Option String
  messageData : Option MessageData
deriving DecidableEq

/-- Stable insertion of `m` into an (ascending) list: `m` goes before the
first strictly later element, hence after every earlier-or-equal one. -/
def insertTs (m : Msg) : List Msg → List Msg
  | [] => [m]
  | x :: xs => if m.timestamp < x.timestamp then m :: x :: xs else x :: insertTs m xs

/-- Stable ascending sort by `timestamp`: the model of
`.sort((a, b) => new Date(a.timestamp).getTime() - new Date(b.timestamp).getTime())`. -/
def sortByTs (l : List Msg) : List Msg := l.foldl (fun acc m => insertTs m acc) []

/-- Ascending-by-timestamp chain condition on a message list. -/
def tsSortedB : List Msg → Bool
  | [] => true
  | [_] => true
  | a :: b :: rest => (decide (a.timestamp ≤ b.timestamp)) && tsSortedB (b :: rest)

/-- The duplicate test both socket handlers run against the current last
element of the log: same `id`, or same (`text`, `sender`, `fileUrl`). -/
def isDupOfLastB (prev : List Msg) (m : Msg) : Bool :=
  match prev.getLast? with
  | none => false
  | some lastMessage =>
      lastMessage.id == m.id ||
        (lastMessage.text == m.text && lastMessage.sender == m.sender &&
          lastMessage.fileUrl == m.fileUrl)

/-- The `setMessages` updater body shared (verbatim, up to the notification
title/body) by the `send_message` and `send_file` handlers: drop the
candidate if it duplicates the last entry; otherwise fire the sound alert
and local notification when the sender is `bot` or `admin`, and append then
re-sort by timestamp. -/
def insertRealtime (m : Msg) (title : String) (body : Option String)
    (prev : List Msg) : List Msg × List Effect :=
  if isDupOfLastB prev m then (prev, [])
  else
    let effs :=
      if m.sender == "bot" || m.sender == "admin" then
        [Effect.playSound, Effect.notify title body]
      else []
    (sortByTs (prev ++ [m]), effs)

/-- The `send_message` socket handler bound while the socket is joined to
room `sId`, as a function of the previous `messages` state. -/
def onSendMessage (sId : String) (parseTime : Option String → Int) (now : Int)
    (freshId : String) (env : Option Envelope) (prev : List Msg) :
    List Msg × List Effect :=
  match env with
  | none => (prev, [])
  | some message =>
    match message.messageData with
    | none => (prev, [])
    | some md =>
      let isReply := (md.message_type.map String.toLower) == some "reply"
      let isExternalChannel := md.channel == some "external"
      if isReply && isExternalChannel && (message.room == some sId) then
        let m : Msg :=
          { id := jsStrOr md.time_created freshId
            conversationId := message.room
            text := md.message
            sender := if md.author_type == some "HUMAN" then "admin" else "bot"
            timestamp :=
              match jsOrNull md.time_created with
              | some t => parseTime (some t)
              | none => now
            fileUrl := jsOrNull md.file_url
            fileName := jsOrNull md.filename }
        insertRealtime m "New Message from Cuoral" m.text prev
      else (prev, [])

/-- The `send_file` socket handler bound while the socket is joined to room
`sId`, as a function of the previous `messages` state. -/
def onSendFile (sId : String) (parseTime : Option String → Int) (now : Int)
    (freshId : String) (env : Option Envelope) (prev : List Msg) :
    List Msg × List Effect :=
  match env with
  | none => (prev, [])
  | some message =>
    match message.messageData with
    | none => (prev, [])
    | some md =>
      let isExternalChannel := md.channel == some "external"
      if isExternalChannel && (message.room == some sId) &&
          ((md.message_type.map String.toLower) == some "reply") then
        let txt := jsStrOr md.message ""
        let m : Msg :=
          { id := jsStrOr md.time_created freshId
            conversationId := message.room
            text := some txt
            sender := if md.author_type == some "HUMAN" then "admin" else "bot"
            timestamp :=
              match jsOrNull md.time_created with
              | some t => parseTime (some t)
              | none => now
            fileUrl :=
              match jsOrNull md.file with
              | some f => some f
              | none => jsOrNull md.file_url
            fileName := jsOrNull md.filename }
        insertRealtime m "New File from Cuoral"
          (some (if txt == "" then "Image received." else txt)) prev
      else (prev, [])

/-- The React state cells of `CuoralProvider` relevant to the session/socket
lifecycle, plus the socket binding and the persisted `AsyncStorage` value. -/
structure CuoralState where
  email : String
  firstName : String
  lastName : String
  messages : List Msg
  sessionId : Option String
  chatThemeColor : String
  isLoadingSession : Bool
  sessionError : Option String
  sessionProfileExists : Bool
  sessionStatus : String
  socketBoundTo : Option String
  storedSessionId : Option String
deriving DecidableEq

/-- `connectSocket(sId)`: no-op on a falsy id, otherwise (re)binds the
single socket to `sId` (the old socket, if any, is torn down first). -/
def connectSocket (s : CuoralState) (sId : Option String) : CuoralState :=
  if jsTruthy sId then { s with socketBoundTo := sId } else s

/-- A wire message record of the `get-single-session` response. -/
structure WireMsg where
  time_created : Option String
  message : Option String
  message_type : Option String
  author_type : Option String
  file_url : Option String
  filename : Option String
deriving DecidableEq

/-- The JSON body of a successful `get-single-session` response
(`configColor` models `data.configuration && data.configuration.color`). -/
structure SessionData where
  session_id : Option String
  configColor : Option String
  email : Option String
  name : Option String
  messages : List WireMsg
  status : Option String
deriving DecidableEq

/-- Outcome oracle for the `get-single-session` fetch. -/
inductive FetchResult where
  | transportError (msg : String)
  | httpError (status : Nat) (jsonMessage : Option String) (statusText : String)
  | ok (data : SessionData)
deriving DecidableEq

/-- The error string thrown on a non-ok response:
`HTTP error! status: S, message: (errorData.message || response.statusText)`. -/
def httpErrorMessage (status : Nat) (jsonMessage : Option String)
    (statusText : String) : String :=
  "HTTP error! status: " ++ toString status ++ ", message: " ++
    jsStrOr jsonMessage statusText

/-- The per-record mapping `getSession` applies to a wire message
(`freshId` stands for the random fallback id). -/
def hydrateOne (parseTime : Option String → Int) (freshId : String)
    (w : WireMsg) : Msg :=
  { id := jsStrOr w.time_created freshId
    conversationId := none
    text := w.message
    sender :=
      if w.message_type == some "REPLY" then
        if w.author_type == some "HUMAN" then "admin" else "bot"
      else "user"
    timestamp := parseTime w.time_created
    fileUrl := jsOrNull w.file_url
    fileName := jsOrNull w.filename }

/-- `data.messages.map(...)` of `getSession`, with position-indexed fresh
fallback ids. -/
def hydrateMessages (parseTime : Option String → Int) (fresh : Nat → String) :
    Nat → List WireMsg → List Msg
  | _, [] => []
  | i, w :: ws =>
      hydrateOne parseTime (fresh i) w :: hydrateMessages parseTime fresh (i + 1) ws

/-- Result of a `getSession` call: the new state, the returned boolean, and
whether a network request was made at all. -/
structure GetSessionOut where
  state : CuoralState
  success : Bool
  requested : Bool
deriving DecidableEq

/-- `getSession(sId)` of CuoralContext.js: guard on a falsy id, fetch the
session, hydrate profile fields and the (re-sorted) message history, then
either mark the session closed or mark it active and connect the socket. -/
def getSession (s : CuoralState) (sId : Option String) (res : FetchResult)
    (parseTime : Option String → Int) (fresh : Nat → String) : GetSessionOut :=
  if !jsTruthy sId then
    { state :=
        { s with
          sessionError := some "Session ID is missing for getSession."
          isLoadingSession := false
          sessionStatus := "error" }
      success := false
      requested := false }
  else
    let s1 := { s with
      isLoadingSession := true, sessionError := none,
      sessionStatus := "loading" }
    match res with
    | .transportError m =>
        { state :=
            { s1 with
              sessionError := some (if m == "" then "Failed to load chat session." else m)
              sessionStatus := "error"
              isLoadingSession := false }
          success := false
          requested := true }
    | .httpError st jm stx =>
        { state :=
            { s1 with
              sessionError := some (httpErrorMessage st jm stx)
              sessionStatus := "error"
              isLoadingSession := false }
          success := false
          requested := true }
    | .ok data =>
        if jsTruthy data.session_id then
          let s2 := { s1 with sessionId := data.session_id }
          let s3 :=
            match jsOrNull data.configColor with
            | some c => { s2 with chatThemeColor := c }
            | none => s2
          let sessionEmail := jsStrOr data.email ""
          let sessionName := jsStrOr data.name ""
          let nameParts := sessionName.splitOn " "
          let s4 :=
            { s3 with
              email := sessionEmail
              firstName := jsStrOr nameParts.head? ""
              lastName := String.intercalate " " (nameParts.drop 1)
              sessionProfileExists :=
                !(sessionEmail == "") && !(sessionName == "") }
          let s5 :=
            { s4 with
              messages := sortByTs (hydrateMessages parseTime fresh 0 data.messages) }
          if data.status == some "closed" then
            { state := { s5 with sessionStatus := "closed", isLoadingSession := false }
              success := true
              requested := true }
          else
            let s6 := connectSocket { s5 with sessionStatus := "active" } data.session_id
            { state := { s6 with isLoadingSession := false }
              success := true
              requested := true }
        else
          { state :=
              { s1 with
                sessionError :=
                  some "Failed to retrieve session: Invalid session data or missing session ID."
                sessionStatus := "error"
                isLoadingSession := false }
            success := false
            requested := true }

/-- Outcome oracle for the `set-profile` request (`ok b` is a 2xx response
whose JSON `status` field has truthiness `b`). -/
inductive ProfileResult where
  | transportError (msg : String)
  | httpError (status : Nat) (jsonMessage : Option String) (statusText : String)
  | ok (status : Bool)
deriving DecidableEq

/-- `setProfile(sId, userEmail, userName)` of CuoralContext.js. -/
def setProfile (s : CuoralState) (sId : Option String)
    (userEmail userName : String) (res : ProfileResult) : CuoralState × Bool :=
  let s1 := { s with
    isLoadingSession := true, sessionError := none,
    sessionStatus := "loading" }
  match res with
  | .transportError m =>
      ({ s1 with
          sessionError := some (if m == "" then "Failed to set profile information." else m),
          sessionStatus := "error",
          isLoadingSession := false }, false)
  | .httpError st jm stx =>
      ({ s1 with
          sessionError := some (httpErrorMessage st jm stx),
          sessionStatus := "error",
          isLoadingSession := false }, false)
  | .ok st =>
      if st then
        let nameParts := userName.splitOn " "
        ({ s1 with
            email := userEmail,
            firstName := jsStrOr nameParts.head? "",
            lastName := String.intercalate " " (nameParts.drop 1),
            sessionProfileExists := true,
            sessionStatus := "active",
            isLoadingSession := false }, true)
      else
        ({ s1 with
            sessionError := some "Failed to set profile: API returned false status.",
            sessionStatus := "error",
            isLoadingSession := false }, false)

/-- The JSON body of a successful `initiate-session` response (`status` is
the truthiness of `data.status`). -/
structure InitData where
  status : Bool
  session_id : Option String
  configColor : Option String
deriving DecidableEq

/-- Outcome oracle for the `initiate-session` fetch. -/
inductive InitResult where
  | transportError (msg : String)
  | httpError (status : Nat) (jsonMessage : Option String) (statusText : String)
  | ok (data : InitData)
deriving DecidableEq

/-- `initiateSession(...)` of CuoralContext.js: clear the log and profile
flag, create a session, persist the new id, then delegate to `getSession`
on the new id (`fetchRes` is that inner call's oracle). -/
def initiateSession (s : CuoralState) (res : InitResult) (fetchRes : FetchResult)
    (parseTime : Option String → Int) (fresh : Nat → String) :
    CuoralState × Bool :=
  let s1 := { s with
    isLoadingSession := true, sessionError := none,
    sessionStatus := "loading", messages := [],
    sessionProfileExists := false }
  match res with
  | .transportError m =>
      ({ s1 with
          sessionError := some (if m == "" then "Failed to initiate chat session." else m),
          sessionStatus := "error",
          isLoadingSession := false }, false)
  | .httpError st jm stx =>
      ({ s1 with
          sessionError := some (httpErrorMessage st jm stx),
          sessionStatus := "error",
          isLoadingSession := false }, false)
  | .ok data =>
      if data.status && jsTruthy data.session_id then
        let s2 := { s1 with
          sessionId := data.session_id,
          storedSessionId := data.session_id }
        let s3 :=
          match jsOrNull data.configColor with
          | some c => { s2 with chatThemeColor := c }
          | none => s2
        let out := getSession s3 data.session_id fetchRes parseTime fresh
        let s4 :=
          if out.success then { out.state with sessionStatus := "active" }
          else { out.state with sessionStatus := "error" }
        ({ s4 with isLoadingSession := false }, out.success)
      else
        ({ s1 with
            sessionError := some "Failed to initiate session: No session_id returned.",
            sessionStatus := "error",
            isLoadingSession := false }, false)

/-- The `setupCuoral` flow of the mount effect: try the stored id via
`getSession`, fall back to `initiateSession`, then the initial-details
profile block (which reads the effect's captured `sessionId` /
`sessionProfileExists`, i.e. the values in `s0`). -/
def setupCuoral (s0 : CuoralState)
    (initialEmail initialFirstName initialLastName : Option String)
    (storedFetch : FetchResult) (createRes : InitResult) (createFetch : FetchResult)
    (profileRes : ProfileResult)
    (parseTime : Option String → Int) (fresh : Nat → String) : CuoralState :=
  let s1 := { s0 with isLoadingSession := true, sessionStatus := "loading" }
  let stored := s0.storedSessionId
  let loadStep :=
    if jsTruthy stored then
      let out := getSession s1 stored storedFetch parseTime fresh
      (out.state, out.success)
    else (s1, false)
  let s2 := loadStep.1
  let loaded := loadStep.2
  let s3 :=
    if !loaded then (initiateSession s2 createRes createFetch parseTime fresh).1
    else s2
  let s4 :=
    if jsTruthy s0.sessionId && !s0.sessionProfileExists &&
        (jsTruthy initialEmail || jsTruthy initialFirstName ||
          jsTruthy initialLastName) then
      let combinedName :=
        (jsStrOr initialFirstName "" ++ " " ++ jsStrOr initialLastName "").trim
      if jsTruthy initialEmail && !(combinedName == "") then
        (setProfile s3 s0.sessionId (jsStrOr initialEmail "") combinedName profileRes).1
      else s3
    else s3
  { s4 with isLoadingSession := false }

/-- `addMessageToState(message)`: plain append of an optimistic local
message to the log (no re-sort). -/
def addMessageToState (prev : List Msg) (message : Msg) : List Msg :=
  prev ++ [message]

/-- The outbound payload built by `sendMessageViaSocket`. -/
structure OutPayload where
  origin : String
  message : String
  message_type : String
  channel : String
  author : String
  author_type : String
  conversation_id : Option String
  organisation_id : String
  file : Option String
  filename : Option String
deriving DecidableEq

/-- An outbound socket emission: `send_file` carries only the room,
`send_message` carries the room and the text payload. -/
inductive OutEvent where
  | sendFileEvt (room : Option String)
  | sendMessageEvt (room : Option String) (messageData : OutPayload)
deriving DecidableEq

/-- Outcome oracle for the file-upload fetch. -/
inductive UploadResult where
  | transportError (msg : String)
  | httpError (status : Nat) (jsonMessage : Option String) (statusText : String)
  | ok
deriving DecidableEq

/-- `sendMessageViaSocket(text, fileData, fileName)`: guard on connection
and session id; for an attachment, upload first and emit `send_file` only
on upload success; for text, emit `send_message` directly. -/
def sendMessageViaSocket (s : CuoralState) (publicKey : String)
    (socketConnected : Bool) (text : String) (fileData : Option String)
    (fileName : Option String) (upload : UploadResult) :
    CuoralState × List OutEvent :=
  if !socketConnected || !jsTruthy s.sessionId then
    ({ s with sessionError := some "Cannot send message/file: Chat not connected." }, [])
  else
    let combined := (s.firstName ++ " " ++ s.lastName).trim
    let authorName :=
      if !(s.email == "") then s.email
      else if !(combined == "") then combined
      else "anonymous"
    let basePayload : OutPayload :=
      { origin := "frontend"
        message := text
        message_type := "QUERY"
        channel := "external"
        author := authorName
        author_type := "HUMAN"
        conversation_id := s.sessionId
        organisation_id := publicKey
        file := fileData
        filename := fileName }
    if jsTruthy fileData then
      match upload with
      | .ok => (s, [OutEvent.sendFileEvt s.sessionId])
      | .httpError st jm stx =>
          ({ s with
              sessionError :=
                some ("File upload failed: " ++ toString st ++ ", " ++ jsStrOr jm stx) },
            [])
      | .transportError m =>
          ({ s with
              sessionError := some (if m == "" then "Failed to send message/file." else m) },
            [])
    else
      (s, [OutEvent.sendMessageEvt s.sessionId
            { basePayload with file := none, filename := none }])

/-- A sample non-duplicate pair of messages used by concrete witnesses. -/
def msgA : Msg :=
  { id := "a", conversationId := none, text := some "hi", sender := "user",
    timestamp := 10, fileUrl := none, fileName := none }

/-- A second sample message with an earlier timestamp. -/
def msgB : Msg :=
  { id := "b", conversationId := none, text := some "yo", sender := "bot",
    timestamp := 5, fileUrl := none, fileName := none }

/-- The provider's initial state (the `useState` defaults, no stored id). -/
def state0 : CuoralState :=
  { email := "", firstName := "", lastName := "", messages := [],
    sessionId := none, chatThemeColor := "#2196F3", isLoadingSession := true,
    sessionError := none, sessionProfileExists := false,
    sessionStatus := "loading", socketBoundTo := none, storedSessionId := none }


/-- Sample fresh-created-session response body. -/
def freshInitData : InitData :=
  { status := true, session_id := some "S1", configColor := none }

/-- Sample fetched-session body: active, null profile, empty history. -/
def freshSessionData : SessionData :=
  { session_id := some "S1", configColor := none, email := none,
    name := none, messages := [], status := some "active" }

theorem tsSortedB_cons_of (a : Msg) (l : List Msg)
    (h : tsSortedB l = true) (ha : ∀ y ∈ l, a.timestamp ≤ y.timestamp) :
    tsSortedB (a :: l) = true := by
  cases l with
  | nil => rfl
  | cons b rest =>
      have hb : a.timestamp ≤ b.timestamp := ha b (by simp)
      simp [tsSortedB, hb, h]

theorem tsSortedB_head_le (x : Msg) (xs : List Msg)
    (h : tsSortedB (x :: xs) = true) : ∀ y ∈ xs, x.timestamp ≤ y.timestamp := by
  induction xs generalizing x with
  | nil => intro y hy; cases hy
  | cons b rest ih =>
      intro y hy
      have hxb : x.timestamp ≤ b.timestamp := by
        simp [tsSortedB, Bool.and_eq_true] at h
        exact h.1
      have hrest : tsSortedB (b :: rest) = true := by
        simp [tsSortedB, Bool.and_eq_true] at h
        simpa [tsSortedB] using h.2
      rcases List.mem_cons.mp hy with rfl | hy'
      · exact hxb
      · exact le_trans hxb (ih b hrest y hy')

theorem tsSortedB_tail (x : Msg) (xs : List Msg)
    (h : tsSortedB (x :: xs) = true) : tsSortedB xs = true := by
  cases xs with
  | nil => rfl
  | cons b rest =>
      simp [tsSortedB, Bool.and_eq_true] at h
      simpa [tsSortedB] using h.2

theorem mem_insertTs (x m : Msg) (l : List Msg) :
    x ∈ insertTs m l ↔ x = m ∨ x ∈ l := by
  induction l with
  | nil => simp [insertTs]
  | cons a as ih =>
      by_cases hlt : m.timestamp < a.timestamp
      · simp [insertTs, hlt]
      · simp [insertTs, hlt, ih]
        tauto

theorem insertTs_sortedB (m : Msg) (l : List Msg) (h : tsSortedB l = true) :
    tsSortedB (insertTs m l) = true := by
  induction l with
  | nil => rfl
  | cons x xs ih =>
      by_cases hlt : m.timestamp < x.timestamp
      · have he : insertTs m (x :: xs) = m :: x :: xs := by simp [insertTs, hlt]
        rw [he]
        simp [tsSortedB, le_of_lt hlt, h]
      · have he : insertTs m (x :: xs) = x :: insertTs m xs := by simp [insertTs, hlt]
        rw [he]
        have hxs : tsSortedB xs = true := tsSortedB_tail x xs h
        refine tsSortedB_cons_of x (insertTs m xs) (ih hxs) ?_
        intro y hy
        rcases (mem_insertTs y m xs).mp hy with rfl | hy'
        · exact le_of_not_lt hlt
        · exact tsSortedB_head_le x xs h y hy'

theorem sortByTs_sortedB_aux (l acc : List Msg) (h : tsSortedB acc = true) :
    tsSortedB (l.foldl (fun acc m => insertTs m acc) acc) = true := by
  induction l generalizing acc with
  | nil => simpa using h
  | cons m l' ih =>
      simp only [List.foldl_cons]
      exact ih (insertTs m acc) (insertTs_sortedB m acc h)

theorem sortByTs_sortedB (l : List Msg) : tsSortedB (sortByTs l) = true :=
  sortByTs_sortedB_aux l [] rfl

theorem mem_sortByTs_aux (x : Msg) (l acc : List Msg) :
    x ∈ l.foldl (fun acc m => insertTs m acc) acc ↔ x ∈ acc ∨ x ∈ l := by
  induction l generalizing acc with
  | nil => simp
  | cons m l' ih =>
      simp only [List.foldl_cons, ih, mem_insertTs]
      simp [List.mem_cons]
      tauto

theorem mem_sortByTs (x : Msg) (l : List Msg) : x ∈ sortByTs l ↔ x ∈ l := by
  simp [sortByTs, mem_sortByTs_aux]

theorem filter_insertTs (m : Msg) (t : Int) (l : List Msg)
    (hl : tsSortedB l = true) :
    (insertTs m l).filter (fun x => x.timestamp == t) =
      if m.timestamp == t then l.filter (fun x => x.timestamp == t) ++ [m]
      else l.filter (fun x => x.timestamp == t) := by
  induction l with
  | nil =>
      by_cases hm : m.timestamp = t <;> simp [insertTs, hm]
  | cons x xs ih =>
      by_cases hlt : m.timestamp < x.timestamp
      · have he : insertTs m (x :: xs) = m :: x :: xs := by simp [insertTs, hlt]
        rw [he]
        by_cases hm : m.timestamp = t
        · have hnone : (x :: xs).filter (fun y => y.timestamp == t) = [] := by
            rw [List.filter_eq_nil_iff]
            intro y hy
            have hxy : x.timestamp ≤ y.timestamp := by
              rcases List.mem_cons.mp hy with rfl | hy'
              · exact le_refl _
              · exact tsSortedB_head_le x xs hl y hy'
            have : t < y.timestamp := lt_of_lt_of_le (hm ▸ hlt) hxy
            simp [ne_of_gt this]
          rw [List.filter_cons, hnone]
          simp [hm]
        · simp [List.filter_cons, hm]
      · have he : insertTs m (x :: xs) = x :: insertTs m xs := by simp [insertTs, hlt]
        rw [he]
        have hxs : tsSortedB xs = true := tsSortedB_tail x xs hl
        by_cases hm : m.timestamp = t
        · simp only [List.filter_cons, ih hxs, hm, beq_self_eq_true, if_true]
          by_cases hx : x.timestamp = t <;> simp [hx]
        · simp only [List.filter_cons, ih hxs, hm]
          by_cases hx : x.timestamp = t <;> simp [hx, hm]

theorem sortByTs_filter_aux (t : Int) (l acc : List Msg) (h : tsSortedB acc = true) :
    (l.foldl (fun acc m => insertTs m acc) acc).filter (fun x => x.timestamp == t) =
      acc.filter (fun x => x.timestamp == t) ++ l.filter (fun x => x.timestamp == t) := by
  induction l generalizing acc with
  | nil => simp
  | cons m l' ih =>
      simp only [List.foldl_cons]
      rw [ih (insertTs m acc) (insertTs_sortedB m acc h)]
      rw [filter_insertTs m t acc h]
      by_cases hm : m.timestamp = t
      · simp [List.filter_cons, hm]
      · simp [List.filter_cons, hm]

/-- Stability of `sortByTs`: messages sharing any fixed timestamp keep their
prior relative order (the filter of the sorted list by that timestamp equals
the filter of the input). -/
theorem sortByTs_stable (t : Int) (l : List Msg) :
    (sortByTs l).filter (fun x => x.timestamp == t) =
      l.filter (fun x => x.timestamp == t) := by
  simpa [sortByTs] using sortByTs_filter_aux t l [] rfl

theorem getSession_storedSessionId (s : CuoralState) (sId : Option String)
    (res : FetchResult) (parseTime : Option String → Int) (fresh : Nat → String) :
    (getSession s sId res parseTime fresh).state.storedSessionId = s.storedSessionId := by
  unfold getSession connectSocket
  split
  · rfl
  · cases res with
    | transportError m => rfl
    | httpError st jm stx => rfl
    | ok data =>
        by_cases h : jsTruthy data.session_id
        · simp only [h, if_true]
          repeat' split
          all_goals rfl
        · simp only [h]
          rfl

theorem getSession_ok_success (s : CuoralState) (sId : Option String)
    (data : SessionData) (parseTime : Option String → Int) (fresh : Nat → String)
    (h1 : jsTruthy sId = true) (h2 : jsTruthy data.session_id = true) :
    (getSession s sId (.ok data) parseTime fresh).success = true := by
  unfold getSession
  simp only [h1, h2, Bool.not_true, if_true]
  repeat' split
  all_goals first | rfl | simp_all

/-- C2: if the log is non-empty and the realtime candidate's id equals the
last element's id, or its text, sender and attachment url all equal the last
element's, the insertion is a no-op on the log and fires no side effect. -/
theorem C2_dedup_noop (m : Msg) (title : String) (body : Option String)
    (prev : List Msg) (lastMessage : Msg)
    (hl : prev.getLast? = some lastMessage)
    (hdup : lastMessage.id = m.id ∨
      (lastMessage.text = m.text ∧ lastMessage.sender = m.sender ∧
        lastMessage.fileUrl = m.fileUrl)) :
    insertRealtime m title body prev = (prev, []) := by
  have hd : isDupOfLastB prev m = true := by
    unfold isDupOfLastB
    rw [hl]
    rcases hdup with h | ⟨h1, h2, h3⟩
    · simp [h]
    · simp [h1, h2, h3]
  simp [insertRealtime, hd]

/-- Witness for C2 at a concrete duplicate-id candidate. -/
theorem C2_dedup_noop_witness :
    insertRealtime msgA "New Message from Cuoral" (some "hi") [msgB, msgA] =
      ([msgB, msgA], []) :=
  C2_dedup_noop msgA "New Message from Cuoral" (some "hi") [msgB, msgA] msgA
    (by decide) (Or.inl rfl)

/-- C8: a second `setProfile` call with arguments identical to a previously
successful one leaves the profile fields and the session status (indeed the
whole state) unchanged after the second call. -/
theorem C8_setProfile_idempotent (s : CuoralState) (sId : Option String)
    (userEmail userName : String) :
    (setProfile (setProfile s sId userEmail userName (.ok true)).1 sId
        userEmail userName (.ok true)).1 =
      (setProfile s sId userEmail userName (.ok true)).1 := rfl

/-- C9: a `send_message` or `send_file` envelope that is absent or whose
`messageData` is absent is ignored: the log is unchanged and no side effect
is invoked. -/
theorem C9_null_envelope_guard (sId : String) (parseTime : Option String → Int)
    (now : Int) (freshId : String) (prev : List Msg) (room : Option String) :
    onSendMessage sId parseTime now freshId none prev = (prev, []) ∧
    onSendFile sId parseTime now freshId none prev = (prev, []) ∧
    onSendMessage sId parseTime now freshId (some ⟨room, none⟩) prev = (prev, []) ∧
    onSendFile sId parseTime now freshId (some ⟨room, none⟩) prev = (prev, []) :=
  ⟨rfl, rfl, rfl, rfl⟩

/-- C10: a falsy session id makes `getSession` return false without any
network request, set the status to error with the missing-session-id
message, and leave the message log unchanged. -/
theorem C10_falsy_session_id (s : CuoralState) (sId : Option String)
    (res : FetchResult) (parseTime : Option String → Int) (fresh : Nat → String)
    (h : jsTruthy sId = false) :
    (getSession s sId res parseTime fresh).requested = false ∧
    (getSession s sId res parseTime fresh).success = false ∧
    (getSession s sId res parseTime fresh).state.sessionStatus = "error" ∧
    (getSession s sId res parseTime fresh).state.sessionError =
      some "Session ID is missing for getSession." ∧
    (getSession s sId res parseTime fresh).state.messages = s.messages := by
  unfold getSession
  simp [h]

/-- Witness for C10 at the empty-string session id. -/
theorem C10_falsy_session_id_witness :
    (getSession state0 (some "") (.ok freshSessionData) (fun _ => 0)
        (fun _ => "")).requested = false ∧
    (getSession state0 (some "") (.ok freshSessionData) (fun _ => 0)
        (fun _ => "")).success = false ∧
    (getSession state0 (some "") (.ok freshSessionData) (fun _ => 0)
        (fun _ => "")).state.sessionStatus = "error" ∧
    (getSession state0 (some "") (.ok freshSessionData) (fun _ => 0)
        (fun _ => "")).state.sessionError =
      some "Session ID is missing for getSession." ∧
    (getSession state0 (some "") (.ok freshSessionData) (fun _ => 0)
        (fun _ => "")).state.messages = state0.messages :=
  C10_falsy_session_id state0 (some "") (.ok freshSessionData) (fun _ => 0)
    (fun _ => "") (by decide)

/-- C1: an inbound envelope is inserted only if its direction is reply, its
channel is external, and its room equals the bound session id; an envelope
failing any of the three conditions is dropped by both handlers, leaving the
log unchanged and invoking no side effect. -/
theorem C1_socket_filter (sId : String) (parseTime : Option String → Int)
    (now : Int) (freshId : String) (room : Option String) (md : MessageData)
    (prev : List Msg)
    (h : ¬(md.message_type.map String.toLower = some "reply" ∧
        md.channel = some "external" ∧ room = some sId)) :
    onSendMessage sId parseTime now freshId (some ⟨room, some md⟩) prev = (prev, []) ∧
    onSendFile sId parseTime now freshId (some ⟨room, some md⟩) prev = (prev, []) := by
  have hb1 : (((md.message_type.map String.toLower == some "reply") &&
      (md.channel == some "external")) && (room == some sId)) = false := by
    by_contra hc
    rw [Bool.not_eq_false] at hc
    simp only [Bool.and_eq_true, beq_iff_eq] at hc
    exact h ⟨hc.1.1, hc.1.2, hc.2⟩
  have hb2 : (((md.channel == some "external") && (room == some sId)) &&
      (md.message_type.map String.toLower == some "reply")) = false := by
    by_contra hc
    rw [Bool.not_eq_false] at hc
    simp only [Bool.and_eq_true, beq_iff_eq] at hc
    exact h ⟨hc.2, hc.1.1, hc.1.2⟩
  constructor
  · simp only [onSendMessage]
    rw [hb1]
    rfl
  · simp only [onSendFile]
    rw [hb2]
    rfl

/-- Witness for C1: an envelope with no direction field and an internal
channel is dropped by both handlers. -/
theorem C1_socket_filter_witness :
    onSendMessage "S1" (fun _ => 0) 0 "f"
      (some ⟨some "S1", some ⟨none, some "internal", some "HUMAN",
        some "hi", some "2024", none, none, none⟩⟩) [msgA] = ([msgA], []) ∧
    onSendFile "S1" (fun _ => 0) 0 "f"
      (some ⟨some "S1", some ⟨none, some "internal", some "HUMAN",
        some "hi", some "2024", none, none, none⟩⟩) [msgA] = ([msgA], []) :=
  C1_socket_filter "S1" (fun _ => 0) 0 "f" (some "S1")
    ⟨none, some "internal", some "HUMAN", some "hi", some "2024",
      none, none, none⟩ [msgA] (by decide)

/-- C5: the outbound `send_file` announcement is emitted only when an
attachment was actually being sent and its upload request succeeded; if the
upload fails (non-ok response or transport error) no announcement is ever
emitted. -/
theorem C5_upload_before_announce (s : CuoralState) (publicKey : String)
    (socketConnected : Bool) (text : String) (fileData fileName : Option String)
    (upload : UploadResult) :
    (∀ room, OutEvent.sendFileEvt room ∈
        (sendMessageViaSocket s publicKey socketConnected text fileData
          fileName upload).2 →
      upload = UploadResult.ok ∧ jsTruthy fileData = true) ∧
    (upload ≠ UploadResult.ok → ∀ room, OutEvent.sendFileEvt room ∉
        (sendMessageViaSocket s publicKey socketConnected text fileData
          fileName upload).2) := by
  unfold sendMessageViaSocket
  split
  · simp
  · by_cases hf : jsTruthy fileData
    · simp only [hf, if_true]
      cases upload <;> simp
    · simp only [hf]
      simp

/-- Witness for C5: a failed upload emits nothing. -/
theorem C5_upload_before_announce_witness :
    OutEvent.sendFileEvt (some "S1") ∉
      (sendMessageViaSocket { state0 with sessionId := some "S1" } "pk" true
        "hi" (some "DATA") (some "a.png")
        (.httpError 500 none "Internal Server Error")).2 :=
  (C5_upload_before_announce { state0 with sessionId := some "S1" } "pk" true
      "hi" (some "DATA") (some "a.png")
      (.httpError 500 none "Internal Server Error")).2 (by decide) (some "S1")

/-- C7: every failing outbound send (not connected, falsy session id, or a
failed attachment upload) leaves the session status, session id, persisted
store and message log untouched and emits nothing; only the error cell is
set. -/
theorem C7_send_failure_frame (s : CuoralState) (publicKey : String)
    (socketConnected : Bool) (text : String) (fileData fileName : Option String)
    (upload : UploadResult)
    (h : socketConnected = false ∨ jsTruthy s.sessionId = false ∨
      (jsTruthy fileData = true ∧ upload ≠ UploadResult.ok)) :
    ((sendMessageViaSocket s publicKey socketConnected text fileData fileName
        upload).1.sessionStatus = s.sessionStatus ∧
      (sendMessageViaSocket s publicKey socketConnected text fileData fileName
        upload).1.sessionId = s.sessionId ∧
      (sendMessageViaSocket s publicKey socketConnected text fileData fileName
        upload).1.storedSessionId = s.storedSessionId ∧
      (sendMessageViaSocket s publicKey socketConnected text fileData fileName
        upload).1.messages = s.messages) ∧
    (sendMessageViaSocket s publicKey socketConnected text fileData fileName
      upload).2 = [] := by
  unfold sendMessageViaSocket
  rcases h with h | h | ⟨h1, h2⟩
  · simp [h]
  · simp [h]
  · by_cases hg : (!socketConnected || !jsTruthy s.sessionId) = true
    · simp [hg]
    · simp only [hg, Bool.false_eq_true, if_false]
      simp only [h1, if_true]
      cases upload with
      | ok => exact absurd rfl h2
      | httpError st jm stx => simp
      | transportError m => simp

/-- Witness for C7: a disconnected-channel send changes none of the frame
fields and emits nothing. -/
theorem C7_send_failure_frame_witness :
    (((sendMessageViaSocket state0 "pk" false "hi" none none .ok).1.sessionStatus
        = state0.sessionStatus ∧
      (sendMessageViaSocket state0 "pk" false "hi" none none .ok).1.sessionId
        = state0.sessionId ∧
      (sendMessageViaSocket state0 "pk" false "hi" none none .ok).1.storedSessionId
        = state0.storedSessionId ∧
      (sendMessageViaSocket state0 "pk" false "hi" none none .ok).1.messages
        = state0.messages) ∧
    (sendMessageViaSocket state0 "pk" false "hi" none none .ok).2 = []) :=
  C7_send_failure_frame state0 "pk" false "hi" none none .ok (Or.inl rfl)

theorem tsSortedB_append_last (prev : List Msg) (m : Msg)
    (h : tsSortedB prev = true)
    (hm : ∀ x ∈ prev, x.timestamp ≤ m.timestamp) :
    tsSortedB (prev ++ [m]) = true := by
  induction prev with
  | nil => rfl
  | cons x xs ih =>
      have hxs : tsSortedB xs = true := tsSortedB_tail x xs h
      have hx : tsSortedB (xs ++ [m]) = true :=
        ih hxs (fun y hy => hm y (List.mem_cons_of_mem x hy))
      rw [List.cons_append]
      refine tsSortedB_cons_of x (xs ++ [m]) hx ?_
      intro y hy
      rcases List.mem_append.mp hy with hy' | hy'
      · exact tsSortedB_head_le x xs h y hy'
      · have : y = m := by simpa using hy'
        subst this
        exact hm x (by simp)

theorem getSession_messages_sorted_or_unchanged (s : CuoralState)
    (sId : Option String) (res : FetchResult) (parseTime : Option String → Int)
    (fresh : Nat → String) :
    (getSession s sId res parseTime fresh).state.messages = s.messages ∨
      tsSortedB (getSession s sId res parseTime fresh).state.messages = true := by
  unfold getSession connectSocket
  split
  · exact Or.inl rfl
  · cases res with
    | transportError m => exact Or.inl rfl
    | httpError st jm stx => exact Or.inl rfl
    | ok data =>
        by_cases h : jsTruthy data.session_id
        · simp only [h, if_true]
          refine Or.inr ?_
          repeat' split
          all_goals exact sortByTs_sortedB _
        · simp only [h]
          exact Or.inl rfl

/-- C3 counterexample: `addMessageToState` appends without re-sorting, so
appending an optimistic message with an earlier timestamp than the current
last entry leaves the log unsorted, refuting the claim for the
`addMessage` operation. -/
theorem C3_sorted_claim_cex :
    ¬ tsSortedB (addMessageToState [msgA] msgB) = true := by decide

/-- C3 amended: hydration via `getSession` either leaves the log untouched
or produces a timestamp-sorted log; realtime insertion leaves the log
untouched or timestamp-sorted, and never removes a message; the re-sort is
stable (messages with equal timestamps keep their prior relative order);
`addMessageToState` merely appends, never removes, and preserves sortedness
only when the appended message's timestamp is at least every existing one. -/
theorem C3_sorted_amended :
    (∀ (s : CuoralState) (sId : Option String) (res : FetchResult)
        (parseTime : Option String → Int) (fresh : Nat → String),
      (getSession s sId res parseTime fresh).state.messages = s.messages ∨
        tsSortedB (getSession s sId res parseTime fresh).state.messages = true) ∧
    (∀ (m : Msg) (title : String) (body : Option String) (prev : List Msg),
      ((insertRealtime m title body prev).1 = prev ∨
        tsSortedB (insertRealtime m title body prev).1 = true) ∧
      (∀ x ∈ prev, x ∈ (insertRealtime m title body prev).1)) ∧
    (∀ (t : Int) (l : List Msg),
      (sortByTs l).filter (fun x => x.timestamp == t) =
        l.filter (fun x => x.timestamp == t)) ∧
    (∀ (prev : List Msg) (m : Msg), tsSortedB prev = true →
      (∀ x ∈ prev, x.timestamp ≤ m.timestamp) →
      tsSortedB (addMessageToState prev m) = true) ∧
    (∀ (prev : List Msg) (m : Msg), ∀ x ∈ prev, x ∈ addMessageToState prev m) := by
  refine ⟨getSession_messages_sorted_or_unchanged, ?_, sortByTs_stable, ?_, ?_⟩
  · intro m title body prev
    constructor
    · unfold insertRealtime
      split
      · exact Or.inl rfl
      · exact Or.inr (sortByTs_sortedB _)
    · intro x hx
      unfold insertRealtime
      split
      · exact hx
      · simpa [mem_sortByTs] using Or.inl hx
  · exact fun prev m h hm => tsSortedB_append_last prev m h hm
  · intro prev m x hx
    simp [addMessageToState, hx]

/-- Witness for C3 amended: appending a later-timestamped optimistic message
to a sorted log keeps it sorted. -/
theorem C3_sorted_amended_witness :
    tsSortedB (addMessageToState [msgB] msgA) = true :=
  C3_sorted_amended.2.2.2.1 [msgB] msgA (by decide) (by decide)

/-- C4 counterexample: fetching an active session with a null profile does
bind the realtime channel — `getSession` calls `connectSocket` for every
non-closed session regardless of profile completeness, refuting the
no-binding part of the claim at the fresh-install input. -/
theorem C4_profile_pending_cex :
    (getSession state0 (some "S1") (.ok freshSessionData) (fun _ => 0)
        (fun _ => "")).state.sessionProfileExists = false ∧
    ¬ (getSession state0 (some "S1") (.ok freshSessionData) (fun _ => 0)
        (fun _ => "")).state.socketBoundTo = none := by decide

/-- C4 amended: on a fetch of a non-closed session with an incomplete
profile, the controller enters the profile-pending representation
(`sessionProfileExists = false`, status `active`) but the realtime channel
IS bound to the fetched session id; on a fresh install (createSession
returning S1, then an active null-profile empty-history fetch) the final
state is profile-pending with an empty log, the socket bound to S1, and S1
persisted. -/
theorem C4_profile_pending_amended :
    (∀ (s : CuoralState) (sId : Option String) (data : SessionData)
        (parseTime : Option String → Int) (fresh : Nat → String),
      jsTruthy sId = true → jsTruthy data.session_id = true →
      ¬ data.status = some "closed" →
      (jsStrOr data.email "" = "" ∨ jsStrOr data.name "" = "") →
      (getSession s sId (.ok data) parseTime fresh).state.sessionProfileExists
          = false ∧
        (getSession s sId (.ok data) parseTime fresh).state.sessionStatus
          = "active" ∧
        (getSession s sId (.ok data) parseTime fresh).state.socketBoundTo
          = data.session_id ∧
        (getSession s sId (.ok data) parseTime fresh).success = true) ∧
    ((initiateSession state0 (.ok freshInitData) (.ok freshSessionData)
        (fun _ => 0) (fun _ => "")).1.sessionProfileExists = false ∧
      (initiateSession state0 (.ok freshInitData) (.ok freshSessionData)
        (fun _ => 0) (fun _ => "")).1.messages = [] ∧
      (initiateSession state0 (.ok freshInitData) (.ok freshSessionData)
        (fun _ => 0) (fun _ => "")).1.socketBoundTo = some "S1" ∧
      (initiateSession state0 (.ok freshInitData) (.ok freshSessionData)
        (fun _ => 0) (fun _ => "")).1.storedSessionId = some "S1" ∧
      (initiateSession state0 (.ok freshInitData) (.ok freshSessionData)
        (fun _ => 0) (fun _ => "")).1.sessionStatus = "active") := by
  constructor
  · intro s sId data parseTime fresh h1 h2 h3 h4
    have hcl : (data.status == some "closed") = false := by
      simpa [beq_eq_false_iff_ne] using h3
    unfold getSession connectSocket
    simp only [h1, h2, Bool.not_true, if_true, hcl, Bool.false_eq_true, if_false]
    have hpe : (!(jsStrOr data.email "" == "") && !(jsStrOr data.name "" == "")) = false := by
      rcases h4 with h | h <;> simp [h]
    simp_all
  · decide

/-- Witness for C4 amended at the fresh-install fetch. -/
theorem C4_profile_pending_amended_witness :
    (getSession state0 (some "S1") (.ok freshSessionData) (fun _ => 0)
        (fun _ => "")).state.sessionProfileExists = false ∧
    (getSession state0 (some "S1") (.ok freshSessionData) (fun _ => 0)
        (fun _ => "")).state.sessionStatus = "active" ∧
    (getSession state0 (some "S1") (.ok freshSessionData) (fun _ => 0)
        (fun _ => "")).state.socketBoundTo = freshSessionData.session_id ∧
    (getSession state0 (some "S1") (.ok freshSessionData) (fun _ => 0)
        (fun _ => "")).success = true :=
  C4_profile_pending_amended.1 state0 (some "S1") freshSessionData
    (fun _ => 0) (fun _ => "") (by decide) (by decide) (by decide)
    (Or.inl (by decide))

theorem initiateSession_ok (s : CuoralState) (d : InitData) (data2 : SessionData)
    (parseTime : Option String → Int) (fresh : Nat → String)
    (hst : d.status = true) (hnew : jsTruthy d.session_id = true)
    (hdata : jsTruthy data2.session_id = true) :
    (initiateSession s (.ok d) (.ok data2) parseTime fresh).1.sessionStatus
        = "active" ∧
      (initiateSession s (.ok d) (.ok data2) parseTime fresh).1.storedSessionId
        = d.session_id ∧
      (initiateSession s (.ok d) (.ok data2) parseTime fresh).2 = true := by
  have hsucc : ∀ s', (getSession s' d.session_id (.ok data2) parseTime fresh).success = true :=
    fun s' => getSession_ok_success s' d.session_id data2 parseTime fresh hnew hdata
  have hstore : ∀ s', (getSession s' d.session_id (.ok data2) parseTime fresh).state.storedSessionId = s'.storedSessionId :=
    fun s' => getSession_storedSessionId s' d.session_id (.ok data2) parseTime fresh
  unfold initiateSession
  simp only [hst, hnew, Bool.and_self, if_true]
  cases hcc : jsOrNull d.configColor with
  | some c => split <;> simp_all
  | none => split <;> simp_all

/-- C6: with a stored session id whose fetch fails, the mount flow falls
back to session creation; when creation succeeds (and the follow-up fetch of
the new id finds it), the final status is active (never error) and the
persistent store holds the newly created id. -/
theorem C6_stale_id_fallback (s0 : CuoralState)
    (initialEmail initialFirstName initialLastName : Option String)
    (storedFetch : FetchResult) (d : InitData) (data2 : SessionData)
    (profileRes : ProfileResult)
    (parseTime : Option String → Int) (fresh : Nat → String)
    (hstored : jsTruthy s0.storedSessionId = true)
    (hsid : s0.sessionId = none)
    (hfail : (getSession { s0 with isLoadingSession := true, sessionStatus := "loading" }
        s0.storedSessionId storedFetch parseTime fresh).success = false)
    (hst : d.status = true) (hnew : jsTruthy d.session_id = true)
    (hdata : jsTruthy data2.session_id = true) :
    (setupCuoral s0 initialEmail initialFirstName initialLastName storedFetch
        (.ok d) (.ok data2) profileRes parseTime fresh).sessionStatus = "active" ∧
      (setupCuoral s0 initialEmail initialFirstName initialLastName storedFetch
        (.ok d) (.ok data2) profileRes parseTime fresh).storedSessionId
        = d.session_id := by
  have hinit := initiateSession_ok
    (getSession { s0 with isLoadingSession := true, sessionStatus := "loading" }
      s0.storedSessionId storedFetch parseTime fresh).state d data2 parseTime
    fresh hst hnew hdata
  unfold setupCuoral
  simp only [hstored, hsid, if_true, hfail]
  simp only [jsTruthy, Bool.false_and, Bool.and_false, if_false,
    Bool.false_eq_true]
  simp_all

/-- Witness for C6: a stored stale id whose fetch 404s, followed by a
successful creation of S1. -/
theorem C6_stale_id_fallback_witness :
    (setupCuoral { state0 with storedSessionId := some "stale" } none none none
        (.httpError 404 (some "Not Found") "Not Found") (.ok freshInitData)
        (.ok freshSessionData) (.ok true) (fun _ => 0) (fun _ => "")).sessionStatus
      = "active" ∧
    (setupCuoral { state0 with storedSessionId := some "stale" } none none none
        (.httpError 404 (some "Not Found") "Not Found") (.ok freshInitData)
        (.ok freshSessionData) (.ok true) (fun _ => 0) (fun _ => "")).storedSessionId
      = freshInitData.session_id :=
  C6_stale_id_fallback { state0 with storedSessionId := some "stale" } none none
    none (.httpError 404 (some "Not Found") "Not Found") freshInitData
    freshSessionData (.ok true) (fun _ => 0) (fun _ => "") (by decide) rfl
    (by decide) rfl (by decide) (by decide)

end Cuoral
